import Mathlib

set_option maxRecDepth 100000

/-
Verification development for the Buyvia voice-command service (src/server.py).

The two components under study are the accent normalizer
(normalize_ghana_accent) and the intent classifier (parse_command).  Both are
pure functions on strings; we embed them shallowly over List Char.  Python
string semantics are modelled on the ASCII fragment actually exercised by the
configuration data: str.lower is Char.toLower (ASCII A-Z), str.strip removes
the ASCII whitespace characters, str.split splits on whitespace runs, and
str.replace rewrites non-overlapping occurrences left to right.  The two
regular expressions of the source (ADD_TO_CART_REGEX, SEARCH_REGEX) are
embedded as explicit leftmost-match scanners with the same lazy/greedy and
alternation-priority semantics Python's re.search uses on those patterns.
Confidences are embedded as rationals carrying the source's literal values.
-/

/-- Characters removed by Python str.strip() with no argument, ASCII fragment:
space, tab, newline, carriage return, vertical tab, form feed. -/
def isPySpace (c : Char) : Bool :=
  decide (c.toNat = 32 ∨ c.toNat = 9 ∨ c.toNat = 10 ∨ c.toNat = 13 ∨ c.toNat = 11 ∨ c.toNat = 12)

/-- Python str.lower() on the ASCII fragment is exactly Char.toLower mapped
over the characters. -/
def pyLower (s : List Char) : List Char :=
  s.map Char.toLower

/-- Python str.strip(): drop leading and trailing whitespace. -/
def pyStrip (s : List Char) : List Char :=
  List.rdropWhile isPySpace (List.dropWhile isPySpace s)

/-- Python str.lower().strip() as used at the top of parse_command. -/
def lowerStrip (s : List Char) : List Char :=
  pyStrip (pyLower s)

/-- Shorthand turning a Lean string literal into the character list it denotes. -/
def toL (s : String) : List Char :=
  s.data

/-- Boolean prefix test on character lists. -/
def isPrefixL : List Char → List Char → Bool
  | [], _ => true
  | _ :: _, [] => false
  | p :: ps, c :: cs => p == c && isPrefixL ps cs

/-- Python substring containment (the `in` operator on str). -/
def containsSub (p : List Char) : List Char → Bool
  | [] => p.isEmpty
  | c :: rest => isPrefixL p (c :: rest) || containsSub p rest

/-- Fuelled worker for pyReplace; the fuel is an upper bound on the length of
the remaining text, so it never runs out on the initial call. -/
def replaceFuel (pat rep : List Char) : Nat → List Char → List Char
  | _, [] => []
  | 0, s => s
  | fuel + 1, c :: rest =>
    if isPrefixL pat (c :: rest) && !pat.isEmpty then
      rep ++ replaceFuel pat rep fuel (List.drop (pat.length - 1) rest)
    else
      c :: replaceFuel pat rep fuel rest

/-- Python str.replace(pat, rep): replace every non-overlapping occurrence,
scanning left to right.  (For the degenerate empty pattern, never used by the
source configuration, this returns the string unchanged.) -/
def pyReplace (s pat rep : List Char) : List Char :=
  replaceFuel pat rep s.length s

/-- Worker for pySplitWs, accumulating the current word in reverse. -/
def splitWsAux : List Char → List Char → List (List Char)
  | acc, [] => if acc.isEmpty then [] else [acc.reverse]
  | acc, c :: rest =>
    if isPySpace c then
      if acc.isEmpty then splitWsAux [] rest else acc.reverse :: splitWsAux [] rest
    else splitWsAux (c :: acc) rest

/-- Python str.split() with no argument: maximal runs of non-whitespace. -/
def pySplitWs (s : List Char) : List (List Char) :=
  splitWsAux [] s

/-- Python ' '.join(words). -/
def joinSpace (ws : List (List Char)) : List Char :=
  List.intercalate [' '] ws

/-- Everything after the first occurrence of pat, if pat occurs. -/
def afterFirstAux (pat : List Char) : List Char → Option (List Char)
  | [] => none
  | c :: rest =>
    if isPrefixL pat (c :: rest) then some (List.drop pat.length (c :: rest))
    else afterFirstAux pat rest

/-- Python text.split(pat, 1)[-1]: the remainder after the first occurrence of
pat when pat occurs in text, and text itself otherwise. -/
def pySplitLast1 (pat s : List Char) : List Char :=
  match afterFirstAux pat s with
  | some r => r
  | none => s


-- ===== data model of the classifier output =====

/-- Output record of parse_command.  Absent dict keys of the Python result are
modelled as none. -/
structure ParsedCommand where
  type : String
  screen : Option String := none
  query : Option String := none
  confidence : ℚ
  raw_text : Option String := none
  deriving DecidableEq

/-- Command bound to a pattern group: the source stores either a plain string
command type or a ('navigate', screen) tuple. -/
inductive CmdTarget where
  | plain (t : String)
  | pair (t : String) (screen : String)
  deriving DecidableEq

/-- EXACT_MATCHES of the source: whole-string table, entries
(command type, optional screen, confidence). -/
def EXACT_MATCHES : List (List Char × String × Option String × ℚ) :=
  [ (toL "cart", ("navigate", some "cart", 0.95)),
    (toL "home", ("navigate", some "home", 0.95)),
    (toL "orders", ("navigate", some "orders", 0.95)),
    (toL "profile", ("navigate", some "profile", 0.95)),
    (toL "shop", ("navigate", some "shop", 0.95)),
    (toL "checkout", ("checkout", none, 0.9)),
    (toL "pay", ("checkout", none, 0.85)),
    (toL "help", ("help", none, 0.9)),
    (toL "momo", ("pay_with_momo", none, 0.95)) ]

/-- Rendering of an EXACT_MATCHES entry, mirroring the `if screen:` branch of
step 1 of parse_command. -/
def renderExact (e : String × Option String × ℚ) : ParsedCommand :=
  match e with
  | (ty, some sc, conf) => { type := ty, screen := some sc, confidence := conf }
  | (ty, none, conf) => { type := ty, confidence := conf }

/-- COMMAND_PATTERNS of the source, in the exact list order.  The source later
freezes each patterns tuple into a frozenset; since every pattern of a group
is bound to the same command and confidence, iteration order inside a group is
irrelevant and the list form is an equivalent embedding. -/
def COMMAND_PATTERNS : List (List (List Char) × CmdTarget × ℚ) :=
  [ ([toL "pay with momo", toL "pay with mobile money", toL "use momo", toL "use mobile money",
      toL "momo payment", toL "mobile money payment", toL "select momo", toL "mtn momo",
      toL "mtn mobile money", toL "vodafone cash", toL "airteltigo money", toL "mobile money",
      toL "pay momo", toL "pay using momo", toL "pay using mobile money"],
     .plain "pay_with_momo", 0.95),
    ([toL "pay with card", toL "use card", toL "card payment", toL "credit card", toL "debit card",
      toL "pay with visa", toL "pay with mastercard", toL "visa payment", toL "pay card",
      toL "pay using card", toL "use my card", toL "use credit card", toL "use debit card"],
     .plain "pay_with_card", 0.95),
    ([toL "pay with cash", toL "cash on delivery", toL "cash payment", toL "pay on delivery",
      toL "pay when i receive", toL "pay at delivery", toL "cod", toL "pay cash",
      toL "cash when delivered", toL "pay on arrival", toL "pay at door"],
     .plain "pay_with_cash", 0.95),
    ([toL "clear cart", toL "clear my cart", toL "empty cart", toL "empty my cart",
      toL "remove all items", toL "remove all from cart", toL "delete all", toL "clear all",
      toL "remove everything", toL "delete everything", toL "start fresh", toL "reset cart"],
     .plain "clear_cart", 0.95),
    ([toL "remove from cart", toL "remove from my cart", toL "delete from cart",
      toL "remove this", toL "remove it", toL "remove item", toL "remove the item",
      toL "delete this", toL "delete it", toL "delete item", toL "take out of cart",
      toL "take it out", toL "take this out", toL "dont want this", toL "don\x27t want this",
      toL "i dont want", toL "i don\x27t want", toL "cancel item", toL "cancel this",
      toL "remove product", toL "delete product", toL "get rid of", toL "take away"],
     .plain "remove_from_cart", 0.95),
    ([toL "add to cart", toL "add to my cart", toL "add this to cart", toL "put in cart",
      toL "add it to cart", toL "add this", toL "buy this", toL "i want this", toL "get this",
      toL "i will take", toL "i\x27ll take", toL "put this in cart", toL "add item",
      toL "add product", toL "add it", toL "put it in cart", toL "include this",
      toL "i need this", toL "give me this", toL "i want to buy"],
     .plain "add_to_cart", 0.95),
    ([toL "increase quantity", toL "add more", toL "add one more", toL "add another",
      toL "increase", toL "plus one", toL "+1", toL "one more", toL "get more"],
     .plain "increase_quantity", 0.9),
    ([toL "decrease quantity", toL "reduce quantity", toL "remove one", toL "less",
      toL "minus one", toL "-1", toL "one less", toL "reduce", toL "fewer"],
     .plain "decrease_quantity", 0.9),
    ([toL "checkout", toL "check out", toL "proceed to checkout", toL "place order",
      toL "complete order", toL "pay now", toL "make payment", toL "ready to pay",
      toL "finish order", toL "submit order", toL "confirm order", toL "complete purchase",
      toL "finalize order", toL "buy now", toL "purchase now", toL "proceed to payment",
      toL "go to checkout", toL "continue to checkout", toL "process order",
      toL "i want to pay", toL "i\x27m ready to pay", toL "ready to checkout",
      toL "complete my order", toL "place my order", toL "pay for items", toL "pay for this"],
     .plain "checkout", 0.95),
    ([toL "go to cart", toL "go cart", toL "open cart", toL "view cart", toL "show cart", toL "my cart",
      toL "see cart", toL "check cart", toL "shopping cart", toL "view my cart", toL "show my cart",
      toL "open my cart", toL "whats in my cart", toL "what\x27s in my cart", toL "cart please",
      toL "see my cart", toL "check my cart", toL "go to my cart", toL "the cart"],
     .pair "navigate" "cart", 0.95),
    ([toL "go to home", toL "go home", toL "back to home", toL "home page", toL "main page",
      toL "back home", toL "return home", toL "take me home", toL "homepage", toL "main screen",
      toL "start page", toL "landing page", toL "go back home", toL "back to start"],
     .pair "navigate" "home", 0.95),
    ([toL "go to orders", toL "my orders", toL "view orders", toL "show orders", toL "order history",
      toL "see orders", toL "check orders", toL "past orders", toL "previous orders",
      toL "view my orders", toL "show my orders", toL "check my orders", toL "purchase history",
      toL "what did i order", toL "my purchases", toL "order status", toL "all orders"],
     .pair "navigate" "orders", 0.95),
    ([toL "track order", toL "track my order", toL "where is my order", toL "order tracking",
      toL "track delivery", toL "where is my delivery", toL "track package", toL "track shipment",
      toL "delivery status", toL "shipping status", toL "when will it arrive",
      toL "when will my order arrive", toL "order location", toL "find my order"],
     .plain "track_order", 0.95),
    ([toL "reorder", toL "order again", toL "buy again", toL "repeat order", toL "same order",
      toL "order the same", toL "reorder this", toL "purchase again"],
     .plain "reorder", 0.9),
    ([toL "cancel order", toL "cancel my order", toL "cancel this order", toL "stop order",
      toL "cancel purchase", toL "dont want order", toL "don\x27t want order"],
     .plain "cancel_order", 0.9),
    ([toL "go to profile", toL "my profile", toL "my account", toL "account", toL "settings",
      toL "profile", toL "user profile", toL "account settings", toL "my settings",
      toL "view profile", toL "open profile", toL "profile page", toL "account page"],
     .pair "navigate" "profile", 0.95),
    ([toL "go to shop", toL "browse", toL "all products", toL "view products", toL "shop", toL "store",
      toL "browse products", toL "see products", toL "show products", toL "product catalog",
      toL "view catalog", toL "go shopping", toL "start shopping", toL "shop now",
      toL "explore products", toL "product list", toL "all items"],
     .pair "navigate" "shop", 0.95),
    ([toL "browse categories", toL "show categories", toL "view categories", toL "categories",
      toL "product categories", toL "all categories", toL "category list"],
     .pair "navigate" "categories", 0.9),
    ([toL "sign out", toL "log out", toL "logout", toL "sign me out", toL "log me out",
      toL "exit account", toL "leave account", toL "logout please", toL "sign off"],
     .plain "sign_out", 0.95),
    ([toL "edit profile", toL "edit my profile", toL "update profile", toL "change profile",
      toL "modify profile", toL "profile settings", toL "update my profile"],
     .plain "edit_profile", 0.9),
    ([toL "voice settings", toL "voice preferences", toL "voice options", toL "microphone settings",
      toL "speech settings", toL "change voice settings", toL "voice control settings"],
     .plain "voice_settings", 0.9),
    ([toL "notification settings", toL "notifications", toL "notification preferences",
      toL "push notifications", toL "manage notifications", toL "change notifications",
      toL "alert settings", toL "notification options"],
     .plain "notification_settings", 0.9),
    ([toL "manage addresses", toL "my addresses", toL "delivery addresses", toL "shipping addresses",
      toL "add address", toL "edit address", toL "change address", toL "addresses",
      toL "saved addresses", toL "address book", toL "delivery address", toL "shipping address"],
     .plain "manage_addresses", 0.9),
    ([toL "change pin", toL "change my pin", toL "update pin", toL "new pin", toL "reset pin",
      toL "modify pin", toL "set pin", toL "set new pin"],
     .plain "change_pin", 0.9),
    ([toL "change password", toL "change my password", toL "update password", toL "new password",
      toL "reset password", toL "modify password", toL "set password", toL "set new password"],
     .plain "change_password", 0.9),
    ([toL "help center", toL "support", toL "customer support", toL "contact support",
      toL "get help", toL "need help", toL "faq", toL "faqs", toL "customer service",
      toL "help desk", toL "contact us", toL "support center"],
     .plain "help_center", 0.9),
    ([toL "add to wishlist", toL "save for later", toL "wishlist", toL "add to favorites",
      toL "favorite this", toL "save item", toL "bookmark", toL "save this"],
     .plain "add_to_wishlist", 0.9),
    ([toL "view wishlist", toL "my wishlist", toL "show wishlist", toL "saved items",
      toL "my favorites", toL "favorites", toL "saved for later"],
     .pair "navigate" "wishlist", 0.9),
    ([toL "help", toL "help me", toL "what can you do", toL "commands", toL "voice commands",
      toL "available commands", toL "what can i say", toL "how to use voice"],
     .plain "help", 0.9) ]

/-- Rendering of a matched pattern group, mirroring the isinstance(tuple)
branch of step 2 of parse_command. -/
def renderPattern (tgt : CmdTarget) (conf : ℚ) : ParsedCommand :=
  match tgt with
  | .pair ty sc => { type := ty, screen := some sc, confidence := conf }
  | .plain ty => { type := ty, confidence := conf }

/-- True when some trigger phrase of the group occurs in the text. -/
def groupMatches (t : List Char) (pats : List (List Char)) : Bool :=
  pats.any fun p => containsSub p t

/-- Step 2 of parse_command: first pattern group containing a matching
trigger wins. -/
def scanPatterns : List (List (List Char) × CmdTarget × ℚ) → List Char → Option ParsedCommand
  | [], _ => none
  | (pats, tgt, conf) :: rest, t =>
    if groupMatches t pats then some (renderPattern tgt conf) else scanPatterns rest t

-- ===== slot-extraction regular expressions =====

/-- Tail of ADD_TO_CART_REGEX after the capture: matches a space, `to` or
`in`, a space, an optional `my ` or `the `, then `cart`, as a leading part of
the remaining text.  Alternation alternatives start with distinct characters,
so the if-chain realises the regex alternative priority exactly. -/
def atcAfterGap (u : List Char) : Bool :=
  isPrefixL (toL "my cart") u || isPrefixL (toL "the cart") u || isPrefixL (toL "cart") u

/-- The part of ADD_TO_CART_REGEX following the lazy capture group. -/
def atcTailOk : List Char → Bool
  | c :: u => c == ' ' && ((isPrefixL (toL "to ") u || isPrefixL (toL "in ") u) && atcAfterGap (u.drop 3))
  | [] => false

/-- Lazy capture `(.+?)` of ADD_TO_CART_REGEX: grow the captured span one
non-newline character at a time and stop as soon as the tail matches. -/
def atcCapture : List Char → List Char → Option (List Char)
  | _, [] => none
  | acc, c :: rest =>
    if c == '\n' then none
    else if atcTailOk rest then some (c :: acc).reverse
    else atcCapture (c :: acc) rest

/-- One anchored attempt of ADD_TO_CART_REGEX at the current position:
`(?:add|put) ` then the captured span then the tail. -/
def atcTryAt (s : List Char) : Option (List Char) :=
  if isPrefixL (toL "add ") s || isPrefixL (toL "put ") s then atcCapture [] (s.drop 4)
  else none

/-- ADD_TO_CART_REGEX.search: leftmost starting position at which the whole
pattern matches wins; returns group(1). -/
def atcSearch : List Char → Option (List Char)
  | [] => none
  | c :: rest =>
    match atcTryAt (c :: rest) with
    | some r => some r
    | none => atcSearch rest

/-- Greedy capture `(.+)` of SEARCH_REGEX with nothing after it: the maximal
run of non-newline characters, required to be non-empty. -/
def searchCapture (u : List Char) : Option (List Char) :=
  match u with
  | [] => none
  | c :: _ => if c == '\n' then none else some (u.takeWhile fun d => !(d == '\n'))

/-- SEARCH_REGEX after the keyword and its space: optional `for ` (preferred
by the regex engine), then the greedy capture. -/
def searchAfterKw (u : List Char) : Option (List Char) :=
  if isPrefixL (toL "for ") u then
    match searchCapture (u.drop 4) with
    | some r => some r
    | none => searchCapture u
  else searchCapture u

/-- One anchored attempt of SEARCH_REGEX: `(?:search|find|look) ` then the
optional `for ` then the capture.  Keyword alternatives start with distinct
characters, so at most one applies at a given position. -/
def searchTryAt (s : List Char) : Option (List Char) :=
  if isPrefixL (toL "search ") s then searchAfterKw (s.drop 7)
  else if isPrefixL (toL "find ") s then searchAfterKw (s.drop 5)
  else if isPrefixL (toL "look ") s then searchAfterKw (s.drop 5)
  else none

/-- SEARCH_REGEX.search: leftmost match wins; returns group(1). -/
def searchRegexSearch : List Char → Option (List Char)
  | [] => none
  | c :: rest =>
    match searchTryAt (c :: rest) with
    | some r => some r
    | none => searchRegexSearch rest

-- ===== heuristic word and phrase tables of steps 6-8 =====

/-- Trigger list of step 6 of parse_command, in source order. -/
def WANT_TRIGGERS : List (List Char) :=
  [toL "i want to buy ", toL "i want ", toL "i need "]

/-- action_words of step 8 of parse_command. -/
def ACTION_WORDS : List (List Char) :=
  [toL "go", toL "sign", toL "log", toL "show", toL "open", toL "view", toL "check", toL "clear",
   toL "add", toL "remove", toL "pay", toL "navigate", toL "my", toL "the", toL "back", toL "take",
   toL "edit", toL "change", toL "update", toL "help", toL "checkout", toL "cart", toL "home",
   toL "orders", toL "profile", toL "settings", toL "out", toL "off", toL "delete", toL "empty",
   toL "cancel", toL "track", toL "place", toL "complete", toL "proceed", toL "confirm"]

/-- action_phrases of step 8 of parse_command. -/
def ACTION_PHRASES : List (List Char) :=
  [toL "go to", toL "go home", toL "go back", toL "go cart", toL "go orders", toL "go profile",
   toL "my cart", toL "view cart", toL "open cart", toL "clear cart", toL "empty cart",
   toL "remove from cart", toL "delete from cart", toL "add to cart", toL "put in cart",
   toL "remove item", toL "delete item", toL "remove this", toL "delete this",
   toL "my orders", toL "view orders", toL "track order", toL "cancel order",
   toL "sign out", toL "log out", toL "sign in", toL "log in",
   toL "check out", toL "checkout", toL "pay now", toL "pay with", toL "place order",
   toL "complete order", toL "confirm order", toL "proceed to",
   toL "edit profile", toL "change password", toL "change pin", toL "voice settings",
   toL "notification settings", toL "manage addresses",
   toL "help me", toL "what can", toL "how do i"]

-- ===== the classifier cascade =====


/-- Python truthiness guard `product and len(product) > 1` used by steps 3
and 4 of parse_command. -/
def lenGuard (q : List Char) : Bool :=
  !q.isEmpty && decide (1 < q.length)

/-- Python guard `query and len(query) > 1 and query not in ['to pay', 'to
checkout']` of step 6 of parse_command. -/
def wantGuard (q : List Char) : Bool :=
  !q.isEmpty && decide (1 < q.length) && !(q == toL "to pay") && !(q == toL "to checkout")

/-- Step 9 (default fallback) of parse_command. -/
def step9 (t : List Char) : ParsedCommand :=
  if 2 < t.length then { type := "search", query := some (String.mk t), confidence := 0.5 }
  else { type := "unknown", confidence := 0.0 }

/-- Second half of step 8: the action-phrase guard. -/
def step8phrases (t : List Char) : ParsedCommand :=
  if ACTION_PHRASES.any (fun ph => containsSub ph t) then
    { type := "unknown", confidence := 0.3, raw_text := some (String.mk t) }
  else step9 t

/-- Step 8 of parse_command: the action-word guard on the first token, then
the action-phrase guard. -/
def step8 (t : List Char) : ParsedCommand :=
  match pySplitWs t with
  | w :: _ =>
    if ACTION_WORDS.contains w then
      { type := "unknown", confidence := 0.3, raw_text := some (String.mk t) }
    else step8phrases t
  | [] => step8phrases t

/-- Step 7 of parse_command: the `show me` heuristic. -/
def step7 (t : List Char) : ParsedCommand :=
  if containsSub (toL "show me") t then
    if !(pyStrip (pySplitLast1 (toL "show me") t)).isEmpty then
      { type := "search", query := some (String.mk (pyStrip (pySplitLast1 (toL "show me") t))),
        confidence := 0.85 }
    else step8 t
  else step8 t

/-- Inner loop of step 6: triggers are tried in order and the loop continues
(ultimately falling through to step 7) when a trigger is absent or its
extracted query fails the guard. -/
def step6loop : List (List Char) → List Char → ParsedCommand
  | [], t => step7 t
  | trig :: rest, t =>
    if containsSub trig t then
      if wantGuard (pyStrip (pySplitLast1 trig t)) then
        { type := "add_to_cart", query := some (String.mk (pyStrip (pySplitLast1 trig t))),
          confidence := 0.8 }
      else step6loop rest t
    else step6loop rest t

/-- Step 6 of parse_command: the `i want X` / `i need X` heuristic. -/
def step6 (t : List Char) : ParsedCommand :=
  if containsSub (toL "i want") t || containsSub (toL "i need") t then step6loop WANT_TRIGGERS t
  else step7 t

/-- Step 5 of parse_command: SEARCH_REGEX extraction; `query or text` falls
back to the whole text when the stripped capture is empty. -/
def step5 (t : List Char) : ParsedCommand :=
  match searchRegexSearch t with
  | some q0 =>
    { type := "search",
      query := some (String.mk (if (pyStrip q0).isEmpty then t else pyStrip q0)),
      confidence := 0.85 }
  | none => step6 t

/-- Step 4 of parse_command: the `buy X` heuristic, guarded by the absence of
`cart` and by the stripped remainder being longer than one character. -/
def step4 (t : List Char) : ParsedCommand :=
  if isPrefixL (toL "buy ") t && !containsSub (toL "cart") t then
    if lenGuard (pyStrip (t.drop 4)) then
      { type := "add_to_cart", query := some (String.mk (pyStrip (t.drop 4))),
        confidence := 0.85 }
    else step5 t
  else step5 t

/-- Step 3 of parse_command: ADD_TO_CART_REGEX extraction with the same
non-empty, longer-than-one guard; on guard failure control falls through. -/
def step3 (t : List Char) : ParsedCommand :=
  match atcSearch t with
  | some p0 =>
    if lenGuard (pyStrip p0) then
      { type := "add_to_cart", query := some (String.mk (pyStrip p0)), confidence := 0.9 }
    else step4 t
  | none => step4 t

/-- Steps 1-9 of parse_command on the already lowercased and stripped text. -/
def parseCore (t : List Char) : ParsedCommand :=
  match List.lookup t EXACT_MATCHES with
  | some e => renderExact e
  | none =>
    match scanPatterns COMMAND_PATTERNS t with
    | some r => r
    | none => step3 t

/-- parse_command of the source: empty input short-circuits to unknown with
confidence 0.0, otherwise the text is lowercased, stripped and fed to the
cascade.  The lru_cache decorator of the source is semantically transparent
for a pure function and is not modelled. -/
def parse_command (text : List Char) : ParsedCommand :=
  if text.isEmpty then { type := "unknown", confidence := 0.0 }
  else parseCore (lowerStrip text)

-- ===== the accent normalizer =====

/-- phrase_corrections of normalize_ghana_accent, in source order. -/
def GHANA_PHRASE_CORRECTIONS : List (List Char × List Char) :=
  [ (toL "go to cats", toL "go to cart"),
    (toL "go to cat", toL "go to cart"),
    (toL "go to cut", toL "go to cart"),
    (toL "go to card", toL "go to cart"),
    (toL "to cats", toL "to cart"),
    (toL "to cat", toL "to cart"),
    (toL "to cut", toL "to cart"),
    (toL "to card", toL "to cart"),
    (toL "go cats", toL "go cart"),
    (toL "go cat", toL "go cart"),
    (toL "go cut", toL "go cart"),
    (toL "my cats", toL "my cart"),
    (toL "my cat", toL "my cart"),
    (toL "view cats", toL "view cart"),
    (toL "view cat", toL "view cart"),
    (toL "clear cats", toL "clear cart"),
    (toL "clear cat", toL "clear cart"),
    (toL "empty cats", toL "empty cart"),
    (toL "empty cat", toL "empty cart"),
    (toL "check outs", toL "checkout"),
    (toL "chek out", toL "checkout"),
    (toL "check owt", toL "checkout"),
    (toL "search 4", toL "search for"),
    (toL "look 4", toL "look for"),
    (toL "searching 4", toL "searching for"),
    (toL "go hom", toL "go home"),
    (toL "go hum", toL "go home"),
    (toL "back 2 home", toL "back to home"),
    (toL "my odas", toL "my orders"),
    (toL "my oda", toL "my order"),
    (toL "view odas", toL "view orders"),
    (toL "add 2 cart", toL "add to cart"),
    (toL "add 2 my cart", toL "add to my cart"),
    (toL "put in cats", toL "put in cart"),
    (toL "put in cat", toL "put in cart"),
    (toL "remove from cats", toL "remove from cart"),
    (toL "remove from cat", toL "remove from cart"),
    (toL "delete from cats", toL "delete from cart"),
    (toL "delete from cat", toL "delete from cart"),
    (toL "i dey find", toL "i am looking for"),
    (toL "i dey search", toL "i am searching for"),
    (toL "make i see", toL "show me"),
    (toL "abeg", toL "please"),
    (toL "e be like", toL "it looks like") ]

/-- One rule application of the phrase-correction loop: the containment guard
followed by a replace-all pass, exactly as in the source loop body. -/
def phraseStep (s : List Char) (r : List Char × List Char) : List Char :=
  if containsSub r.1 s then pyReplace s r.1 r.2 else s

/-- The phrase-correction loop: rules applied once each, in list order, each
rule seeing the output of all earlier rules. -/
def applyPhraseCorrections (rules : List (List Char × List Char)) (s : List Char) : List Char :=
  rules.foldl phraseStep s

/-- Modelled from the spec: the word-level correction resource
ghana_corrections.json is not part of src/; per the spec (sections 6 and 7) a
missing or unloadable correction resource degrades to the empty mapping, which
is the configuration this development settles claims against. -/
def GHANA_CORRECTIONS : List (List Char × List Char) := []

/-- Punctuation stripped from word edges by word.strip('.,!?;:'). -/
def isPunctChar (c : Char) : Bool :=
  c == '.' || c == ',' || c == '!' || c == '?' || c == ';' || c == ':'

/-- word.strip('.,!?;:') of the word-level loop. -/
def stripPunct (w : List Char) : List Char :=
  List.rdropWhile isPunctChar (List.dropWhile isPunctChar w)

/-- Word-level correction of normalize_ghana_accent: dictionary lookup on the
punctuation-stripped token, then the optional similarity scorer, else the
original token unchanged. -/
def correctWord (corr : List (List Char × List Char))
    (scorer : Option (List Char → Option (List Char))) (w : List Char) : List Char :=
  match List.lookup (stripPunct w) corr with
  | some v => v
  | none =>
    match scorer with
    | some f =>
      match f (stripPunct w) with
      | some m => m
      | none => w
    | none => w

/-- normalize_ghana_accent of the source, parameterised by the correction
dictionary and the optional fuzzy scorer (rapidfuzz): lowercase, phrase
corrections in order, whitespace split, per-word correction, space join. -/
def normalize_ghana_accent (corr : List (List Char × List Char))
    (scorer : Option (List Char → Option (List Char))) (text : List Char) : List Char :=
  if text.isEmpty then text
  else
    joinSpace ((pySplitWs (applyPhraseCorrections GHANA_PHRASE_CORRECTIONS (pyLower text))).map
      (correctWord corr scorer))

/-- Modelled from the spec: the deployed normalizer configuration, with the
correction resource degraded to the empty mapping and the similarity scorer
absent (the spec treats the scorer as an optional capability whose absence is
silent feature degradation). -/
def normalizeText (text : List Char) : List Char :=
  normalize_ghana_accent GHANA_CORRECTIONS none text

-- ===== claim-support definitions =====

/-- The fixed finite set of command type names the classifier can emit: every
type occurring in EXACT_MATCHES or COMMAND_PATTERNS plus the three types
produced by the slot extractors, heuristics, and fallbacks. -/
def COMMAND_TYPES : List String :=
  ["navigate", "checkout", "help", "pay_with_momo", "pay_with_card", "pay_with_cash",
   "clear_cart", "remove_from_cart", "add_to_cart", "increase_quantity", "decrease_quantity",
   "track_order", "reorder", "cancel_order", "sign_out", "edit_profile", "voice_settings",
   "notification_settings", "manage_addresses", "change_pin", "change_password",
   "help_center", "add_to_wishlist", "search", "unknown"]

/-- Field-presence invariant that actually holds of parse_command output: the
type is from the fixed finite set; a screen is present exactly for navigate;
a query appears only on search and add_to_cart results (and always on search);
raw_text appears only on unknown results. -/
def fieldInvariantB (r : ParsedCommand) : Bool :=
  COMMAND_TYPES.contains r.type &&
  (r.screen.isSome == (r.type == "navigate")) &&
  (!r.query.isSome || (r.type == "search" || r.type == "add_to_cart")) &&
  (!(r.type == "search") || r.query.isSome) &&
  (!r.raw_text.isSome || (r.type == "unknown"))

/-- Field-presence invariant exactly as the specification claims it, with
biconditional presence: query present exactly for search, add_to_cart and
remove_from_cart, raw_text present exactly for unknown. -/
def claimedFieldInvariantB (r : ParsedCommand) : Bool :=
  COMMAND_TYPES.contains r.type &&
  (r.screen.isSome == (r.type == "navigate")) &&
  (r.query.isSome == (r.type == "search" || r.type == "add_to_cart" || r.type == "remove_from_cart")) &&
  (r.raw_text.isSome == (r.type == "unknown"))

/-- Condition under which the cascade of parse_command reaches the default
fallback of step 9: each of steps 1 through 8 declines, with the exact
fall-through guard of every step reproduced. -/
def reachesFallback (t : List Char) : Bool :=
  (List.lookup t EXACT_MATCHES).isNone &&
  (scanPatterns COMMAND_PATTERNS t).isNone &&
  (match atcSearch t with
   | some p0 => !lenGuard (pyStrip p0)
   | none => true) &&
  !(isPrefixL (toL "buy ") t && !containsSub (toL "cart") t && lenGuard (pyStrip (t.drop 4))) &&
  (searchRegexSearch t).isNone &&
  WANT_TRIGGERS.all (fun trig =>
    !(containsSub trig t && wantGuard (pyStrip (pySplitLast1 trig t)))) &&
  !(containsSub (toL "show me") t && !(pyStrip (pySplitLast1 (toL "show me") t)).isEmpty) &&
  (match pySplitWs t with
   | w :: _ => !ACTION_WORDS.contains w
   | [] => true) &&
  !(ACTION_PHRASES.any fun ph => containsSub ph t)

/-- Some trigger phrase of the three payment-method groups (the first three
entries of COMMAND_PATTERNS) occurs in the text. -/
def paymentTriggerB (t : List Char) : Bool :=
  (COMMAND_PATTERNS.take 3).any fun g => groupMatches t g.1

/-- Some trigger phrase of the three cart-mutation groups (clear, remove,
add: entries three to five of COMMAND_PATTERNS) occurs in the text. -/
def cartMutationTriggerB (t : List Char) : Bool :=
  ((COMMAND_PATTERNS.drop 3).take 3).any fun g => groupMatches t g.1
-- ===== character-level lemmas =====

theorem charOfNat_toNat (n : Nat) (h : n.isValidChar) : (Char.ofNat n).toNat = n := by
  simp [Char.ofNat, dif_pos h, Char.ofNatAux, Char.toNat, UInt32.toNat]

theorem charToNat_inj {c d : Char} (h : c.toNat = d.toNat) : c = d :=
  Char.eq_of_val_eq (UInt32.toNat.inj h)

theorem toLower_toNat (c : Char) :
    (Char.toLower c).toNat = if 65 ≤ c.toNat ∧ c.toNat ≤ 90 then c.toNat + 32 else c.toNat := by
  simp only [Char.toLower]
  split
  · next h =>
    have hv : (c.toNat + 32).isValidChar := by left; omega
    exact charOfNat_toNat _ hv
  · rfl

theorem toLower_idem (c : Char) : Char.toLower (Char.toLower c) = Char.toLower c := by
  apply charToNat_inj
  simp only [toLower_toNat]
  split_ifs <;> omega

theorem isPySpace_toLower (c : Char) : isPySpace (Char.toLower c) = isPySpace c := by
  simp only [isPySpace, toLower_toNat]
  split_ifs with h
  · exact decide_eq_decide.mpr (by omega)
  · rfl

theorem toLower_of_isPySpace {c : Char} (h : isPySpace c = true) : Char.toLower c = c := by
  apply charToNat_inj
  rw [toLower_toNat, if_neg]
  simp only [isPySpace, decide_eq_true_eq] at h
  omega

-- ===== lower/strip structural lemmas =====

theorem pyLower_sp_mem {s : List Char} {c : Char} (h : c ∈ pyLower s) :
    Char.toLower c = c := by
  simp only [pyLower, List.mem_map] at h
  obtain ⟨d, _, rfl⟩ := h
  exact toLower_idem d

theorem pyLower_eq_self {s : List Char} (h : ∀ c ∈ s, Char.toLower c = c) :
    pyLower s = s := by
  induction s with
  | nil => rfl
  | cons a l ih =>
    simp only [pyLower, List.map_cons]
    rw [h a (List.mem_cons_self a l)]
    have := ih fun c hc => h c (List.mem_cons_of_mem a hc)
    simpa [pyLower] using this

theorem mem_pyStrip {s : List Char} {c : Char} (h : c ∈ pyStrip s) : c ∈ s := by
  unfold pyStrip at h
  have h1 : c ∈ List.dropWhile isPySpace s := by
    have hpre := List.rdropWhile_prefix isPySpace (List.dropWhile isPySpace s)
    exact hpre.sublist.mem h
  exact (List.dropWhile_suffix isPySpace).sublist.mem h1

theorem dropWhile_head_false {p : Char → Bool} :
    ∀ {l b : _} {t : List Char}, List.dropWhile p l = b :: t → p b = false := by
  intro l
  induction l with
  | nil => intro b t h; simp [List.dropWhile] at h
  | cons a l ih =>
    intro b t h
    cases hpa : p a with
    | true => simp only [List.dropWhile, hpa] at h; exact ih h
    | false =>
      simp only [List.dropWhile, hpa] at h
      obtain ⟨rfl, -⟩ := h
      exact hpa

theorem pyStrip_idem (s : List Char) : pyStrip (pyStrip s) = pyStrip s := by
  unfold pyStrip
  have hdw : List.dropWhile isPySpace
      (List.rdropWhile isPySpace (List.dropWhile isPySpace s)) =
      List.rdropWhile isPySpace (List.dropWhile isPySpace s) := by
    rcases hv : List.rdropWhile isPySpace (List.dropWhile isPySpace s) with _ | ⟨b, t⟩
    · rfl
    · have hpre : (b :: t) <+: List.dropWhile isPySpace s := by
        rw [← hv]
        exact List.rdropWhile_prefix isPySpace (List.dropWhile isPySpace s)
      obtain ⟨w, hw⟩ := hpre
      have hb : isPySpace b = false := dropWhile_head_false hw.symm
      simp [List.dropWhile, hb]
  rw [hdw, List.rdropWhile_idempotent]

theorem lowerStrip_idem (s : List Char) : lowerStrip (lowerStrip s) = lowerStrip s := by
  unfold lowerStrip
  have h1 : pyLower (pyStrip (pyLower s)) = pyStrip (pyLower s) :=
    pyLower_eq_self fun c hc => pyLower_sp_mem (mem_pyStrip hc)
  rw [h1, pyStrip_idem]

theorem pyStrip_eq_nil {s : List Char} (h : ∀ c ∈ s, isPySpace c = true) :
    pyStrip s = [] := by
  unfold pyStrip
  rw [List.dropWhile_eq_nil_iff.mpr h, List.rdropWhile_nil]

theorem lowerStrip_eq_nil {s : List Char} (h : s.all isPySpace = true) :
    lowerStrip s = [] := by
  unfold lowerStrip
  apply pyStrip_eq_nil
  intro c hc
  simp only [pyLower, List.mem_map] at hc
  obtain ⟨d, hd, rfl⟩ := hc
  rw [isPySpace_toLower]
  exact List.all_eq_true.mp h d hd

-- ===== lookup and scan lemmas =====

theorem lookup_mem {α β : Type} [BEq α] [LawfulBEq α] :
    ∀ (l : List (α × β)) (k : α) (v : β), List.lookup k l = some v → (k, v) ∈ l := by
  intro l
  induction l with
  | nil => intro k v h; simp [List.lookup] at h
  | cons hd tl ih =>
    intro k v h
    obtain ⟨a, b⟩ := hd
    cases hbeq : (k == a) with
    | true =>
      simp only [List.lookup, hbeq] at h
      obtain rfl : b = v := by injection h
      obtain rfl : k = a := eq_of_beq hbeq
      exact List.mem_cons_self _ _
    | false =>
      simp only [List.lookup, hbeq] at h
      exact List.mem_cons_of_mem _ (ih k v h)

theorem scanPatterns_mem :
    ∀ (l : List (List (List Char) × CmdTarget × ℚ)) (t : List Char) (r : ParsedCommand),
      scanPatterns l t = some r →
      ∃ g ∈ l, groupMatches t g.1 = true ∧ r = renderPattern g.2.1 g.2.2 := by
  intro l
  induction l with
  | nil => intro t r h; simp [scanPatterns] at h
  | cons g0 gs ih =>
    intro t r h
    obtain ⟨pats, tgt, conf⟩ := g0
    by_cases hm : groupMatches t pats = true
    · simp only [scanPatterns, if_pos hm] at h
      obtain rfl : renderPattern tgt conf = r := by injection h
      exact ⟨(pats, tgt, conf), List.mem_cons_self _ _, hm, rfl⟩
    · simp only [scanPatterns, if_neg hm] at h
      obtain ⟨g, hg, hgm, hr⟩ := ih t r h
      exact ⟨g, List.mem_cons_of_mem _ hg, hgm, hr⟩

theorem scanPatterns_take :
    ∀ (l : List (List (List Char) × CmdTarget × ℚ)) (n : Nat) (t : List Char),
      ((l.take n).any fun g => groupMatches t g.1) = true →
      ∃ g ∈ l.take n, groupMatches t g.1 = true ∧
        scanPatterns l t = some (renderPattern g.2.1 g.2.2) := by
  intro l
  induction l with
  | nil => intro n t h; simp at h
  | cons g0 gs ih =>
    intro n t h
    cases n with
    | zero => simp at h
    | succ n =>
      obtain ⟨pats, tgt, conf⟩ := g0
      by_cases h0 : groupMatches t pats = true
      · refine ⟨(pats, tgt, conf), ?_, h0, by simp [scanPatterns, h0]⟩
        rw [List.take_succ_cons]
        exact List.mem_cons_self _ _
      · rw [List.take_succ_cons, List.any_cons, Bool.or_eq_true] at h
        rcases h with hm | htl
        · exact absurd hm h0
        · obtain ⟨g, hg, hgm, hscan⟩ := ih n t htl
          refine ⟨g, ?_, hgm, ?_⟩
          · rw [List.take_succ_cons]
            exact List.mem_cons_of_mem _ hg
          · simp [scanPatterns, h0, hscan]

-- ===== invariant lemmas for the cascade =====

theorem inv_step9 (t : List Char) : fieldInvariantB (step9 t) = true := by
  unfold step9
  split <;> rfl

theorem inv_step8phrases (t : List Char) : fieldInvariantB (step8phrases t) = true := by
  unfold step8phrases
  split
  · rfl
  · exact inv_step9 t

theorem inv_step8 (t : List Char) : fieldInvariantB (step8 t) = true := by
  unfold step8
  split
  · split
    · rfl
    · exact inv_step8phrases t
  · exact inv_step8phrases t

theorem inv_step7 (t : List Char) : fieldInvariantB (step7 t) = true := by
  unfold step7
  split
  · split
    · rfl
    · exact inv_step8 t
  · exact inv_step8 t

theorem inv_step6loop : ∀ (trigs : List (List Char)) (t : List Char),
    fieldInvariantB (step6loop trigs t) = true := by
  intro trigs
  induction trigs with
  | nil => intro t; exact inv_step7 t
  | cons trig rest ih =>
    intro t
    unfold step6loop
    split
    · split
      · rfl
      · exact ih t
    · exact ih t

theorem inv_step6 (t : List Char) : fieldInvariantB (step6 t) = true := by
  unfold step6
  split
  · exact inv_step6loop WANT_TRIGGERS t
  · exact inv_step7 t

theorem inv_step5 (t : List Char) : fieldInvariantB (step5 t) = true := by
  unfold step5
  split
  · rfl
  · exact inv_step6 t

theorem inv_step4 (t : List Char) : fieldInvariantB (step4 t) = true := by
  unfold step4
  split
  · split
    · rfl
    · exact inv_step5 t
  · exact inv_step5 t

theorem inv_step3 (t : List Char) : fieldInvariantB (step3 t) = true := by
  unfold step3
  split
  · split
    · rfl
    · exact inv_step4 t
  · exact inv_step4 t

theorem inv_parseCore (t : List Char) : fieldInvariantB (parseCore t) = true := by
  unfold parseCore
  split
  · next e hE =>
    have hmem := lookup_mem EXACT_MATCHES t e hE
    have hA : ∀ p ∈ EXACT_MATCHES, fieldInvariantB (renderExact p.2) = true := by decide
    exact hA (t, e) hmem
  · next hE =>
    split
    · next r hS =>
      obtain ⟨g, hg, -, rfl⟩ := scanPatterns_mem COMMAND_PATTERNS t r hS
      have hB : ∀ g ∈ COMMAND_PATTERNS, fieldInvariantB (renderPattern g.2.1 g.2.2) = true := by
        decide
      exact hB g hg
    · exact inv_step3 t

-- ===== fall-through lemmas for the cascade =====

theorem step3_fallthrough {t : List Char}
    (h : (match atcSearch t with
          | some p0 => !lenGuard (pyStrip p0)
          | none => true) = true) : step3 t = step4 t := by
  unfold step3
  split
  · next p0 hA =>
    rw [hA] at h
    rw [if_neg]
    simp only [Bool.not_eq_true'] at h
    simp [h]
  · rfl

theorem step4_fallthrough {t : List Char}
    (h : (!(isPrefixL (toL "buy ") t && !containsSub (toL "cart") t &&
        lenGuard (pyStrip (t.drop 4)))) = true) : step4 t = step5 t := by
  unfold step4
  by_cases hab : (isPrefixL (toL "buy ") t && !containsSub (toL "cart") t) = true
  · rw [if_pos hab]
    rw [Bool.not_eq_true'] at h
    rw [hab] at h
    simp only [Bool.true_and] at h
    rw [if_neg]
    simp [h]
  · rw [if_neg hab]

theorem step5_fallthrough {t : List Char}
    (h : (searchRegexSearch t).isNone = true) : step5 t = step6 t := by
  unfold step5
  split
  · next q0 hq => rw [hq] at h; simp at h
  · rfl

theorem step6loop_fallthrough : ∀ (trigs : List (List Char)) (t : List Char),
    (trigs.all fun trig =>
      !(containsSub trig t && wantGuard (pyStrip (pySplitLast1 trig t)))) = true →
    step6loop trigs t = step7 t := by
  intro trigs
  induction trigs with
  | nil => intro t _; rfl
  | cons trig rest ih =>
    intro t h
    rw [List.all_cons, Bool.and_eq_true] at h
    obtain ⟨hhd, htl⟩ := h
    unfold step6loop
    by_cases hc : containsSub trig t = true
    · rw [if_pos hc]
      rw [Bool.not_eq_true', hc, Bool.true_and] at hhd
      rw [if_neg (by simp [hhd])]
      exact ih t htl
    · rw [if_neg hc]
      exact ih t htl

theorem step6_fallthrough {t : List Char}
    (h : (WANT_TRIGGERS.all fun trig =>
      !(containsSub trig t && wantGuard (pyStrip (pySplitLast1 trig t)))) = true) :
    step6 t = step7 t := by
  unfold step6
  split
  · exact step6loop_fallthrough WANT_TRIGGERS t h
  · rfl

theorem step7_fallthrough {t : List Char}
    (h : (!(containsSub (toL "show me") t &&
        !(pyStrip (pySplitLast1 (toL "show me") t)).isEmpty)) = true) : step7 t = step8 t := by
  unfold step7
  by_cases hc : containsSub (toL "show me") t = true
  · rw [if_pos hc]
    rw [Bool.not_eq_true', hc, Bool.true_and] at h
    rw [if_neg (by simp [h])]
  · rw [if_neg hc]

theorem step8_fallthrough {t : List Char}
    (h8 : (match pySplitWs t with
           | w :: _ => !ACTION_WORDS.contains w
           | [] => true) = true)
    (h9 : (!(ACTION_PHRASES.any fun ph => containsSub ph t)) = true) : step8 t = step9 t := by
  have hp : step8phrases t = step9 t := by
    unfold step8phrases
    rw [Bool.not_eq_true'] at h9
    rw [if_neg (by simp [h9])]
  unfold step8
  split
  · next w ws hw =>
    rw [hw] at h8
    rw [Bool.not_eq_true'] at h8
    rw [if_neg (by rw [h8]; simp)]
    exact hp
  · exact hp

theorem parseCore_fallback {t : List Char} (h : reachesFallback t = true) :
    parseCore t = step9 t := by
  unfold reachesFallback at h
  simp only [Bool.and_eq_true] at h
  obtain ⟨⟨⟨⟨⟨⟨⟨⟨h1, h2⟩, h3⟩, h4⟩, h5⟩, h6⟩, h7⟩, h8⟩, h9⟩ := h
  unfold parseCore
  split
  · next e hE => rw [hE] at h1; simp at h1
  · next hE =>
    split
    · next r hS => rw [hS] at h2; simp at h2
    · next hS =>
      rw [step3_fallthrough h3, step4_fallthrough h4, step5_fallthrough h5,
          step6_fallthrough h6, step7_fallthrough h7, step8_fallthrough h8 h9]

-- ===== claim theorems =====

/-- C1 (amended): for every input, the ParsedCommand returned by
parse_command satisfies the field-presence invariant that actually holds of
the code: the type is drawn from the fixed finite set COMMAND_TYPES; a screen
is present exactly when the type is navigate; a query is present only when
the type is search or add_to_cart, and always when it is search; a raw_text
is present only when the type is unknown. -/
theorem C1_field_invariant (s : List Char) : fieldInvariantB (parse_command s) = true := by
  unfold parse_command
  split
  · rfl
  · exact inv_parseCore _

/-- C1 counterexample to the claim as stated: on input "remove this" the
classifier returns type remove_from_cart with no query field, and on the
whitespace input "  " it returns type unknown with no raw_text field, so
neither biconditional of the claimed invariant holds. -/
theorem C1_counterexample :
    claimedFieldInvariantB (parse_command (toL "remove this")) = false ∧
    (parse_command (toL "remove this")).type = "remove_from_cart" ∧
    (parse_command (toL "remove this")).query = none ∧
    claimedFieldInvariantB (parse_command (toL "  ")) = false ∧
    (parse_command (toL "  ")).type = "unknown" ∧
    (parse_command (toL "  ")).raw_text = none :=
  ⟨rfl, rfl, rfl, rfl, rfl, rfl⟩

/-- C7: the normalizer is a total function (its embedding returns a string
for every input by construction), normalize("") is "", and
normalize("go to cats") is "go to cart". -/
theorem C7_normalize_examples :
    normalizeText (toL "") = toL "" ∧ normalizeText (toL "go to cats") = toL "go to cart" :=
  ⟨rfl, by decide⟩

/-- C8: the phrase-correction rules are applied as sequential substring
replacements in the fixed list order: each rule is processed exactly once,
with every later rule operating on the output of all earlier rules (the fold
decomposes over list concatenation), and an expression correctable only by
two rules in sequence, such as "search 4 my cats", ends up fully corrected. -/
theorem C8_phrase_rules_sequential :
    (∀ (l₁ l₂ : List (List Char × List Char)) (s : List Char),
        applyPhraseCorrections (l₁ ++ l₂) s =
          applyPhraseCorrections l₂ (applyPhraseCorrections l₁ s)) ∧
    (∀ (r : List Char × List Char) (rest : List (List Char × List Char)) (s : List Char),
        applyPhraseCorrections (r :: rest) s = applyPhraseCorrections rest (phraseStep s r)) ∧
    applyPhraseCorrections GHANA_PHRASE_CORRECTIONS (pyLower (toL "search 4 my cats")) =
      toL "search for my cart" ∧
    normalizeText (toL "search 4 my cats") = toL "search for my cart" := by
  refine ⟨?_, fun r rest s => rfl, by decide, by decide⟩
  intro l₁ l₂ s
  simp [applyPhraseCorrections, List.foldl_append]

/-- C9: the classifier is total and maps every empty or whitespace-only input
to unknown with confidence 0.0. -/
theorem C9_whitespace_unknown (s : List Char) (h : s.all isPySpace = true) :
    parse_command s = { type := "unknown", confidence := 0.0 } := by
  unfold parse_command
  split
  · rfl
  · rw [lowerStrip_eq_nil h]
    rfl

/-- C9 witness: the two-space input is whitespace-only and classifies to
unknown with confidence 0.0. -/
theorem C9_witness :
    (toL "  ").all isPySpace = true ∧
    parse_command (toL "  ") = { type := "unknown", confidence := 0.0 } :=
  ⟨by decide, C9_whitespace_unknown (toL "  ") (by decide)⟩

/-- C10: classification is invariant under lowercasing and stripping the
input, because parse_command re-applies both internally and they are
idempotent as a pair. -/
theorem C10_lower_strip_invariance (s : List Char) :
    parse_command (lowerStrip s) = parse_command s := by
  cases s with
  | nil => rfl
  | cons a l =>
    have hr : parse_command (a :: l) = parseCore (lowerStrip (a :: l)) := by
      unfold parse_command
      rw [if_neg (by simp)]
    rw [hr]
    rcases hT : lowerStrip (a :: l) with _ | ⟨b, t⟩
    · rfl
    · have hid := lowerStrip_idem (a :: l)
      rw [hT] at hid
      unfold parse_command
      rw [if_neg (by simp), hid]

/-- C2 counterexample to the claim as stated: "xyzqkr" has length 6, so it
does not hit the length boundary and the classifier returns search with the
text as query and confidence 0.5, not unknown with confidence 0.0. -/
theorem C2_counterexample :
    parse_command (toL "xyzqkr") =
      { type := "search", query := some "xyzqkr", confidence := 0.5 } ∧
    (parse_command (toL "xyzqkr")).type ≠ "unknown" :=
  ⟨rfl, by decide⟩

/-- C2 (amended): "xyzqkr" and "xyzqkrabc" both exceed the length-2 boundary
and fall back to search with the whole text and confidence 0.5; in general,
any input reaching the default fallback returns search with the trimmed text
as query and confidence 0.5 when that text is longer than two characters, and
unknown with confidence 0.0 otherwise. -/
theorem C2_default_fallback :
    parse_command (toL "xyzqkr") =
      { type := "search", query := some "xyzqkr", confidence := 0.5 } ∧
    parse_command (toL "xyzqkrabc") =
      { type := "search", query := some "xyzqkrabc", confidence := 0.5 } ∧
    ∀ s : List Char, reachesFallback (lowerStrip s) = true →
      parse_command s =
        if 2 < (lowerStrip s).length then
          { type := "search", query := some (String.mk (lowerStrip s)), confidence := 0.5 }
        else { type := "unknown", confidence := 0.0 } := by
  refine ⟨rfl, rfl, ?_⟩
  intro s h
  unfold parse_command
  split
  · next hs =>
    cases s with
    | nil => rfl
    | cons a l => exact absurd hs (by simp)
  · next hs =>
    rw [parseCore_fallback h]
    rfl

/-- C2 witness: the two-character input "ab" reaches the fallback and, being
at most two characters long, classifies to unknown with confidence 0.0. -/
theorem C2_witness :
    reachesFallback (lowerStrip (toL "ab")) = true ∧
    parse_command (toL "ab") = { type := "unknown", confidence := 0.0 } :=
  ⟨by decide, (C2_default_fallback.2.2 (toL "ab") (by decide)).trans rfl⟩

/-- C5: whenever the lowercased, stripped input is a key of EXACT_MATCHES,
parse_command returns that entry immediately, ahead of every pattern group
and heuristic; in particular "pay" yields checkout with confidence 0.85 and
"momo" yields pay_with_momo with confidence 0.95. -/
theorem C5_exact_match_precedence :
    (∀ (s : List Char) (e : String × Option String × ℚ),
        List.lookup (lowerStrip s) EXACT_MATCHES = some e → parse_command s = renderExact e) ∧
    parse_command (toL "pay") = { type := "checkout", confidence := 0.85 } ∧
    parse_command (toL "momo") = { type := "pay_with_momo", confidence := 0.95 } := by
  refine ⟨?_, rfl, rfl⟩
  intro s e h
  unfold parse_command
  split
  · next hs =>
    exfalso
    cases s with
    | nil =>
      have hn : List.lookup (lowerStrip []) EXACT_MATCHES = none := by decide
      rw [hn] at h
      exact Option.noConfusion h
    | cons a l => exact absurd hs (by simp)
  · next hs =>
    unfold parseCore
    rw [h]

/-- C5 witness: the whole-string input "checkout" is a key of the table and
classifies to its bound entry. -/
theorem C5_witness :
    List.lookup (lowerStrip (toL "checkout")) EXACT_MATCHES = some ("checkout", none, 0.9) ∧
    parse_command (toL "checkout") = renderExact ("checkout", none, 0.9) :=
  ⟨rfl, C5_exact_match_precedence.1 (toL "checkout") ("checkout", none, 0.9) rfl⟩

/-- C6 counterexample to the claim as stated: "buy x" reaches the buy
heuristic (no exact match, no pattern group, no add-to-cart regex match),
starts with "buy " and contains no "cart", yet its remainder "x" fails the
undocumented len > 1 guard, so the classifier falls through to the search
fallback instead of returning the remainder as a product query. -/
theorem C6_counterexample :
    parse_command (toL "buy x") =
      { type := "search", query := some "buy x", confidence := 0.5 } ∧
    (parse_command (toL "buy x")).type ≠ "add_to_cart" :=
  ⟨rfl, by decide⟩

/-- C6 (amended): every input reaching the buy heuristic that starts with
"buy ", does not contain "cart", and whose whitespace-trimmed remainder is
longer than one character, classifies to add_to_cart with that remainder as
query and confidence 0.85. -/
theorem C6_buy_heuristic (s : List Char)
    (h1 : (List.lookup (lowerStrip s) EXACT_MATCHES).isNone = true)
    (h2 : (scanPatterns COMMAND_PATTERNS (lowerStrip s)).isNone = true)
    (h3 : (match atcSearch (lowerStrip s) with
           | some p0 => !lenGuard (pyStrip p0)
           | none => true) = true)
    (h4 : isPrefixL (toL "buy ") (lowerStrip s) = true)
    (h5 : containsSub (toL "cart") (lowerStrip s) = false)
    (h6 : 1 < (pyStrip ((lowerStrip s).drop 4)).length) :
    parse_command s =
      { type := "add_to_cart",
        query := some (String.mk (pyStrip ((lowerStrip s).drop 4))),
        confidence := 0.85 } := by
  unfold parse_command
  split
  · next hs =>
    exfalso
    cases s with
    | nil => exact absurd h4 (by decide)
    | cons a l => exact absurd hs (by simp)
  · next hs =>
    rw [Option.isNone_iff_eq_none] at h1 h2
    unfold parseCore
    rw [h1, h2, step3_fallthrough h3]
    unfold step4
    have hie : (pyStrip ((lowerStrip s).drop 4)).isEmpty = false := by
      cases hq : pyStrip ((lowerStrip s).drop 4) with
      | nil => rw [hq] at h6; simp at h6
      | cons b u => rfl
    rw [if_pos (by simp [h4, h5]), if_pos (by simp [lenGuard, hie, h6])]

/-- C6 witness: "buy rice" reaches the buy heuristic with remainder "rice"
and classifies to add_to_cart with query "rice" and confidence 0.85. -/
theorem C6_witness :
    isPrefixL (toL "buy ") (lowerStrip (toL "buy rice")) = true ∧
    containsSub (toL "cart") (lowerStrip (toL "buy rice")) = false ∧
    parse_command (toL "buy rice") =
      { type := "add_to_cart", query := some "rice", confidence := 0.85 } :=
  ⟨by decide, by decide,
    (C6_buy_heuristic (toL "buy rice") (by decide) (by decide) (by decide) (by decide)
      (by decide) (by decide)).trans rfl⟩

/-- C3: "pay with momo" classifies to pay_with_momo with confidence 0.95 and
not to checkout; in general, any input whose normalized text contains a
trigger phrase of one of the three payment-method groups (the first three
pattern groups, evaluated before the checkout group) classifies to a
payment-method command. -/
theorem C3_payment_before_checkout :
    parse_command (toL "pay with momo") = { type := "pay_with_momo", confidence := 0.95 } ∧
    (parse_command (toL "pay with momo")).type ≠ "checkout" ∧
    ∀ s : List Char, paymentTriggerB (lowerStrip s) = true →
      (parse_command s).type = "pay_with_momo" ∨ (parse_command s).type = "pay_with_card" ∨
        (parse_command s).type = "pay_with_cash" := by
  refine ⟨rfl, by decide, ?_⟩
  intro s h
  unfold parse_command
  split
  · next hs =>
    exfalso
    cases s with
    | nil => exact absurd h (by decide)
    | cons a l => exact absurd hs (by simp)
  · next hs =>
    unfold parseCore
    split
    · next e hE =>
      exfalso
      have hmem := lookup_mem EXACT_MATCHES (lowerStrip s) e hE
      have hkeys : ∀ p ∈ EXACT_MATCHES, paymentTriggerB p.1 = false := by decide
      have hf : paymentTriggerB (lowerStrip s) = false := by
        simpa using hkeys (lowerStrip s, e) hmem
      exact absurd h (by simp [hf])
    · next hE =>
      split
      · next r hS =>
        unfold paymentTriggerB at h
        obtain ⟨g, hg, -, hscan⟩ := scanPatterns_take COMMAND_PATTERNS 3 (lowerStrip s) h
        rw [hS] at hscan
        obtain rfl : r = renderPattern g.2.1 g.2.2 := by injection hscan
        have htypes : ∀ g ∈ COMMAND_PATTERNS.take 3,
            (renderPattern g.2.1 g.2.2).type = "pay_with_momo" ∨
            (renderPattern g.2.1 g.2.2).type = "pay_with_card" ∨
            (renderPattern g.2.1 g.2.2).type = "pay_with_cash" := by decide
        exact htypes g hg
      · next hS =>
        exfalso
        unfold paymentTriggerB at h
        obtain ⟨g, hg, -, hscan⟩ := scanPatterns_take COMMAND_PATTERNS 3 (lowerStrip s) h
        rw [hS] at hscan
        exact Option.noConfusion hscan

/-- C3 witness: "i will pay with momo now" contains a payment-method trigger
and classifies to a payment-method command. -/
theorem C3_witness :
    paymentTriggerB (lowerStrip (toL "i will pay with momo now")) = true ∧
    ((parse_command (toL "i will pay with momo now")).type = "pay_with_momo" ∨
     (parse_command (toL "i will pay with momo now")).type = "pay_with_card" ∨
     (parse_command (toL "i will pay with momo now")).type = "pay_with_cash") :=
  ⟨by decide, C3_payment_before_checkout.2.2 (toL "i will pay with momo now") (by decide)⟩

/-- C4: "go to cart" classifies to navigate with screen cart and confidence
0.95, while "clear cart" classifies to clear_cart, not navigate; in general,
an input containing a cart-mutation trigger (clear, remove, add groups, which
precede the cart-navigation group) and no payment-method trigger classifies
to a cart-mutation command. -/
theorem C4_mutation_before_cart_nav :
    parse_command (toL "go to cart") =
      { type := "navigate", screen := some "cart", confidence := 0.95 } ∧
    parse_command (toL "clear cart") = { type := "clear_cart", confidence := 0.95 } ∧
    (parse_command (toL "clear cart")).type ≠ "navigate" ∧
    ∀ s : List Char, cartMutationTriggerB (lowerStrip s) = true →
      paymentTriggerB (lowerStrip s) = false →
      (parse_command s).type = "clear_cart" ∨ (parse_command s).type = "remove_from_cart" ∨
        (parse_command s).type = "add_to_cart" := by
  refine ⟨rfl, rfl, by decide, ?_⟩
  intro s hmut hpay
  unfold cartMutationTriggerB at hmut
  unfold paymentTriggerB at hpay
  have hsplit : COMMAND_PATTERNS.take 6 =
      COMMAND_PATTERNS.take 3 ++ (COMMAND_PATTERNS.drop 3).take 3 := rfl
  have h6 : ((COMMAND_PATTERNS.take 6).any fun g => groupMatches (lowerStrip s) g.1) = true := by
    rw [hsplit, List.any_append, Bool.or_eq_true]
    right
    exact hmut
  unfold parse_command
  split
  · next hs =>
    exfalso
    cases s with
    | nil => exact absurd hmut (by decide)
    | cons a l => exact absurd hs (by simp)
  · next hs =>
    unfold parseCore
    split
    · next e hE =>
      exfalso
      have hmem := lookup_mem EXACT_MATCHES (lowerStrip s) e hE
      have hkeys : ∀ p ∈ EXACT_MATCHES, cartMutationTriggerB p.1 = false := by decide
      have hf : cartMutationTriggerB (lowerStrip s) = false := by
        simpa using hkeys (lowerStrip s, e) hmem
      unfold cartMutationTriggerB at hf
      exact absurd hmut (by simp [hf])
    · next hE =>
      split
      · next r hS =>
        obtain ⟨g, hg, hgm, hscan⟩ := scanPatterns_take COMMAND_PATTERNS 6 (lowerStrip s) h6
        rw [hS] at hscan
        obtain rfl : r = renderPattern g.2.1 g.2.2 := by injection hscan
        rw [hsplit, List.mem_append] at hg
        rcases hg with hga | hgb
        · exfalso
          rw [List.any_eq_false] at hpay
          exact absurd hgm (hpay g hga)
        · have htypes : ∀ g ∈ (COMMAND_PATTERNS.drop 3).take 3,
              (renderPattern g.2.1 g.2.2).type = "clear_cart" ∨
              (renderPattern g.2.1 g.2.2).type = "remove_from_cart" ∨
              (renderPattern g.2.1 g.2.2).type = "add_to_cart" := by decide
          exact htypes g hgb
      · next hS =>
        exfalso
        obtain ⟨g, hg, -, hscan⟩ := scanPatterns_take COMMAND_PATTERNS 6 (lowerStrip s) h6
        rw [hS] at hscan
        exact Option.noConfusion hscan

/-- C4 witness: "empty my cart" contains a cart-mutation trigger and no
payment trigger, and classifies to a cart-mutation command. -/
theorem C4_witness :
    cartMutationTriggerB (lowerStrip (toL "empty my cart")) = true ∧
    paymentTriggerB (lowerStrip (toL "empty my cart")) = false ∧
    ((parse_command (toL "empty my cart")).type = "clear_cart" ∨
     (parse_command (toL "empty my cart")).type = "remove_from_cart" ∨
     (parse_command (toL "empty my cart")).type = "add_to_cart") :=
  ⟨by decide, by decide,
    C4_mutation_before_cart_nav.2.2.2 (toL "empty my cart") (by decide) (by decide)⟩
